import Mathlib

set_option linter.unusedVariables false

/-! Shallow embedding of the autoinvoice batch download orchestrator
    (src-tauri/src/services/downloader.rs together with captcha.rs and
    error.rs).  External collaborators — the browser session, the captcha
    network call and the filesystem — are modelled as per-attempt oracles;
    emitted events and browser calls are collected in explicit lists, and
    the shared cancellation flag is modelled as a boolean oracle read at
    each load point (the reads are numbered in program order by a counter
    threaded through the execution). -/

/-- The retry bound MAX_RETRIES declared in downloader.rs. -/
def MAX_RETRIES : Nat := 3

/-- The error enumeration AppError of error.rs. -/
inductive AppError where
  | ExcelError (msg : String)
  | BrowserError (msg : String)
  | NetworkError (msg : String)
  | DatabaseError (msg : String)
  | ElementNotFound (msg : String)
  | CaptchaFailed (attempts : Nat)
  | DownloadFailed (msg : String)
  | ConfigError (msg : String)
  | IoError (msg : String)
deriving DecidableEq

/-- The Display rendering of AppError, following the error attribute of each
    variant in error.rs; this is the string produced by e.to_string(). -/
def AppError.toMessage : AppError → String
  | .ExcelError m => "Excel parsing error: " ++ m
  | .BrowserError m => "Browser error: " ++ m
  | .NetworkError m => "Network error: " ++ m
  | .DatabaseError m => "Database error: " ++ m
  | .ElementNotFound m => "Element not found: " ++ m
  | .CaptchaFailed n => "Captcha solving failed after " ++ toString n ++ " attempts"
  | .DownloadFailed m => "Download failed: " ++ m
  | .ConfigError m => "Invalid configuration: " ++ m
  | .IoError m => "IO error: " ++ m

/-- The DownloadConfig struct of downloader.rs. -/
structure DownloadConfig where
  vnpt_url : String
  openai_api_key : String
  download_directory : String
  headless : Bool
deriving DecidableEq

/-- The InvoiceDownloadRequest struct of downloader.rs. -/
structure InvoiceDownloadRequest where
  id : String
  code : String
deriving DecidableEq

/-- The InvoiceResult struct of downloader.rs. -/
structure InvoiceResult where
  invoice_id : String
  code : String
  status : String
  error : Option String
  file_path : Option String
deriving DecidableEq

/-- The BatchResult struct of downloader.rs (total and counts are u32 in the
    source; batch sizes are far below 2^32, so Nat is used). -/
structure BatchResult where
  batch_id : String
  total : Nat
  success_count : Nat
  failed_count : Nat
  results : List InvoiceResult
deriving DecidableEq

/-- The events emitted through app.emit in downloader.rs: the payload structs
    ProgressEvent, LogEvent, InvoiceStatusEvent and CaptchaRequiredEvent.
    The wall-clock timestamp field of LogEvent is not modelled. -/
inductive Event where
  | progress (batch_id : String) (current total percentage : Nat)
  | log (batch_id level message : String)
  | invoiceStatus (batch_id invoice_id status : String) (error file_path : Option String)
  | captchaRequired (batch_id invoice_id invoice_code image_base64 : String)
deriving DecidableEq

/-- The external browser-session calls made during one attempt, recorded so
    that theorems can speak about which calls were ever issued. -/
inductive BCall where
  | newBrowser
  | navigate
  | fillInvoiceCode
  | screenshot
  | fillCaptcha
  | submit
  | checkForError
  | downloadPdf
deriving DecidableEq

/-- The oracle describing the outcomes of the VnptBrowser calls of browser.rs
    for one invoice, indexed by the attempt number: each attempt calls each
    operation at most once. -/
structure BrowserEnv where
  navigate : Nat → Except AppError Unit
  fillInvoiceCode : Nat → Except AppError Unit
  screenshot : Nat → Except AppError (List Nat)
  fillCaptcha : Nat → Except AppError Unit
  submit : Nat → Except AppError Unit
  checkForError : Nat → Option String
  downloadPdf : Nat → Except AppError (List Nat)

/-- The full external environment of one invoice task: the VnptBrowser::new
    outcome, the browser oracle, the per-attempt network outcome feeding
    CaptchaSolver (an error, or the content string of the first choice,
    none when the choice list is empty), and the per-attempt filesystem
    outcome of create_dir_all plus write (some message means an io error). -/
structure InvoiceEnv where
  newBrowser : Except AppError Unit
  browser : BrowserEnv
  solveNet : Nat → Except AppError (Option String)
  fs : Nat → Option String

/-- Whitespace trimming on both ends, as str::trim in captcha.rs (the source
    trims Unicode whitespace; the strings involved use the ASCII fragment). -/
def trimWs (s : String) : String :=
  String.mk (((s.data.dropWhile Char.isWhitespace).reverse.dropWhile Char.isWhitespace).reverse)

/-- The character class trimmed by the trim_matches call of captcha.rs:
    double quote, single quote, whitespace. -/
def isQuoteWs (c : Char) : Bool :=
  c = '\"' || c = Char.ofNat 39 || c.isWhitespace

/-- The trim_matches cleanup of captcha.rs applied to the solver response. -/
def trimQuoteWs (s : String) : String :=
  String.mk (((s.data.dropWhile isQuoteWs).reverse.dropWhile isQuoteWs).reverse)

/-- CaptchaSolver::solve of captcha.rs: reject an empty api key with a
    configuration error, otherwise propagate the network error, map an empty
    choice list to CaptchaFailed 1, trim the content, and map a blank cleaned
    text to CaptchaFailed 1. -/
def CaptchaSolver.solve (api_key : String) (net : Except AppError (Option String)) :
    Except AppError String :=
  if api_key = "" then .error (.ConfigError "OpenAI API key is not set")
  else
    match net with
    | .error e => .error e
    | .ok none => .error (.CaptchaFailed 1)
    | .ok (some content) =>
      let captcha_text := trimWs content
      let cleaned := trimQuoteWs captcha_text
      if cleaned = "" then .error (.CaptchaFailed 1) else .ok cleaned

/-- Modelled from the spec: CaptchaSolver::solve_blocking is called by
    downloader.rs but absent from the sources (only the async solve is);
    spec section 4.3 gives the solver a single solve contract with no retry
    logic of its own, so the blocking variant is modelled as the synchronous
    execution of solve. -/
def CaptchaSolver.solve_blocking (api_key : String) (net : Except AppError (Option String)) :
    Except AppError String :=
  CaptchaSolver.solve api_key net

/-- Lowercasing as used by the banner check in downloader.rs (the source
    calls str::to_lowercase, which is Unicode-aware; the model lowercases
    per character, which agrees on the ASCII fragment, and the non-ASCII
    characters of the patterns are already lowercase). -/
def lowerString (s : String) : String :=
  String.mk (s.data.map Char.toLower)

def containsSubAux (needle : List Char) : List Char → Bool
  | [] => needle.isEmpty
  | c :: rest => needle.isPrefixOf (c :: rest) || containsSubAux needle rest

/-- Substring containment, as str::contains with a string pattern. -/
def containsSub (hay needle : String) : Bool :=
  containsSubAux needle.data hay.data

/-- The captcha-rejection banner test of downloader.rs: the lowercased banner
    contains "captcha", "sai" or "không đúng". -/
def isCaptchaError (err : String) : Bool :=
  containsSub (lowerString err) "captcha" || containsSub (lowerString err) "sai" ||
    containsSub (lowerString err) "không đúng"

/-- The path-hostile characters replaced by the sanitizer in download_pdf_sync. -/
def isPathHostile (c : Char) : Bool :=
  c = '/' || c = '\\' || c = ':' || c = '*' || c = '?' || c = '\"' || c = '<' ||
    c = '>' || c = '|'

/-- The invoice-code sanitizer of download_pdf_sync: each path-hostile
    character becomes an underscore. -/
def sanitizeCode (code : String) : String :=
  String.mk (code.data.map (fun c => if isPathHostile c then '_' else c))

/-- The directory string already ends in a separator (used by joinPath). -/
def endsWithSlash (dir : String) : Bool :=
  dir.data.getLast? = some '/'

/-- PathBuf::join for the non-absolute file names produced by the sanitizer
    (the sanitized code contains no separator), followed by to_string_lossy,
    which is the identity on the UTF-8 strings of the model. -/
def joinPath (dir filename : String) : String :=
  if dir = "" then filename
  else if endsWithSlash dir then dir ++ filename
  else dir ++ "/" ++ filename

def b64Alphabet : List Char :=
  "ABCDEFGHIJKLMNOPQRSTUVWXYZabcdefghijklmnopqrstuvwxyz0123456789+/".data

def b64Char (n : Nat) : Char :=
  b64Alphabet.getD n 'A'

/-- Standard base64 with padding, as base64::engine::general_purpose::STANDARD
    used for the captcha-required payload; bytes are naturals below 256. -/
def base64Encode : List Nat → String
  | [] => ""
  | [b1] =>
    String.mk [b64Char (b1 / 4), b64Char (b1 % 4 * 16), '=', '=']
  | [b1, b2] =>
    String.mk [b64Char (b1 / 4), b64Char (b1 % 4 * 16 + b2 / 16), b64Char (b2 % 16 * 4), '=']
  | b1 :: b2 :: b3 :: rest =>
    String.mk [b64Char (b1 / 4), b64Char (b1 % 4 * 16 + b2 / 16),
      b64Char (b2 % 16 * 4 + b3 / 64), b64Char (b3 % 64)] ++ base64Encode rest

/-- The percentage computed by emit_progress (the source computes it in f32
    and truncates to u32; the model truncates the exact ratio, and no theorem
    below depends on this field's value). -/
def pct (current total : Nat) : Nat :=
  if 0 < total then current * 100 / total else 0

instance {ε α : Type} [DecidableEq ε] [DecidableEq α] : DecidableEq (Except ε α) := fun x y =>
  match x, y with
  | .ok a, .ok b =>
    if h : a = b then isTrue (by rw [h]) else isFalse (by intro hc; cases hc; exact h rfl)
  | .ok a, .error b => isFalse (by intro hc; cases hc)
  | .error a, .ok b => isFalse (by intro hc; cases hc)
  | .error a, .error b =>
    if h : a = b then isTrue (by rw [h]) else isFalse (by intro hc; cases hc; exact h rfl)

/-- The outcome of one iteration of the retry loop body: either the function
    returns (Ok path or Err), or the loop continues with the next attempt. -/
inductive AttemptStep where
  | done (r : Except AppError String)
  | retry
deriving DecidableEq

/-- download_pdf_sync of downloader.rs: fetch the PDF bytes from the browser,
    reject an empty payload, build the sanitized file name, create the
    directory and write the file (both filesystem operations are the fs
    oracle, whose io error is converted by the From instance of error.rs),
    and return the saved path. -/
def download_pdf_sync (cfg : DownloadConfig) (env : InvoiceEnv) (a : Nat)
    (invoice_code : String) : Except AppError String :=
  match env.browser.downloadPdf a with
  | .error e => .error e
  | .ok pdf_bytes =>
    if pdf_bytes.isEmpty then .error (.DownloadFailed "Empty PDF received")
    else
      let safe_code := sanitizeCode invoice_code
      let filename := safe_code ++ ".pdf"
      match env.fs a with
      | some ioMsg => .error (.IoError ioMsg)
      | none => .ok (joinPath cfg.download_directory filename)

/-- One iteration of the for loop of download_invoice_with_retry_sync, for
    attempt number a with cancellation counter t: the cancellation check, the
    attempt log, the navigate / fill / screenshot calls (whose errors return
    from the function), the captcha solve with its two branches, the banner
    check after submit, and the download.  Returns the events emitted, the
    browser calls issued, the next counter value, and the step outcome. -/
def runAttempt (cfg : DownloadConfig) (batch_id invoice_id invoice_code : String)
    (env : InvoiceEnv) (cancel : Nat → Bool) (a t : Nat) :
    List Event × List BCall × Nat × AttemptStep :=
  if cancel t then
    ([], [], t + 1, .done (.error (.DownloadFailed "Download cancelled")))
  else
    let evA := Event.log batch_id "info"
      ("Attempt " ++ toString a ++ "/" ++ toString MAX_RETRIES ++ " for invoice " ++ invoice_code)
    match env.browser.navigate a with
    | .error e => ([evA], [.navigate], t + 1, .done (.error e))
    | .ok _ =>
      match env.browser.fillInvoiceCode a with
      | .error e => ([evA], [.navigate, .fillInvoiceCode], t + 1, .done (.error e))
      | .ok _ =>
        match env.browser.screenshot a with
        | .error e =>
          ([evA], [.navigate, .fillInvoiceCode, .screenshot], t + 1, .done (.error e))
        | .ok captcha_image =>
          match CaptchaSolver.solve_blocking cfg.openai_api_key (env.solveNet a) with
          | .ok captcha_text =>
            let evS := Event.log batch_id "info" ("Captcha solved: " ++ captcha_text)
            match env.browser.fillCaptcha a with
            | .error e =>
              ([evA, evS], [.navigate, .fillInvoiceCode, .screenshot, .fillCaptcha],
                t + 1, .done (.error e))
            | .ok _ =>
              match env.browser.submit a with
              | .error e =>
                ([evA, evS],
                  [.navigate, .fillInvoiceCode, .screenshot, .fillCaptcha, .submit],
                  t + 1, .done (.error e))
              | .ok _ =>
                match env.browser.checkForError a with
                | some err =>
                  let evE := Event.log batch_id "warn" ("Page error: " ++ err)
                  if isCaptchaError err then
                    ([evA, evS, evE],
                      [.navigate, .fillInvoiceCode, .screenshot, .fillCaptcha, .submit,
                        .checkForError],
                      t + 1, .retry)
                  else
                    match download_pdf_sync cfg env a invoice_code with
                    | .ok file_path =>
                      ([evA, evS, evE, Event.log batch_id "info" ("Downloaded: " ++ file_path)],
                        [.navigate, .fillInvoiceCode, .screenshot, .fillCaptcha, .submit,
                          .checkForError, .downloadPdf],
                        t + 1, .done (.ok file_path))
                    | .error e =>
                      ([evA, evS, evE,
                          Event.log batch_id "warn" ("Download failed: " ++ e.toMessage)],
                        [.navigate, .fillInvoiceCode, .screenshot, .fillCaptcha, .submit,
                          .checkForError, .downloadPdf],
                        t + 1, .retry)
                | none =>
                  match download_pdf_sync cfg env a invoice_code with
                  | .ok file_path =>
                    ([evA, evS, Event.log batch_id "info" ("Downloaded: " ++ file_path)],
                      [.navigate, .fillInvoiceCode, .screenshot, .fillCaptcha, .submit,
                        .checkForError, .downloadPdf],
                      t + 1, .done (.ok file_path))
                  | .error e =>
                    ([evA, evS, Event.log batch_id "warn" ("Download failed: " ++ e.toMessage)],
                      [.navigate, .fillInvoiceCode, .screenshot, .fillCaptcha, .submit,
                        .checkForError, .downloadPdf],
                      t + 1, .retry)
          | .error e =>
            let evF := Event.log batch_id "warn" ("Captcha solving failed: " ++ e.toMessage)
            if a = MAX_RETRIES then
              ([evA, evF,
                  Event.captchaRequired batch_id invoice_id invoice_code
                    (base64Encode captcha_image)],
                [.navigate, .fillInvoiceCode, .screenshot], t + 1, .retry)
            else
              ([evA, evF], [.navigate, .fillInvoiceCode, .screenshot], t + 1, .retry)

/-- The for loop of download_invoice_with_retry_sync over the remaining
    attempt numbers; when the list is exhausted the function returns the
    captcha-exhausted error of the last line of the function. -/
def retryLoop (cfg : DownloadConfig) (batch_id invoice_id invoice_code : String)
    (env : InvoiceEnv) (cancel : Nat → Bool) :
    List Nat → Nat → List Event × List BCall × Nat × Except AppError String
  | [], t => ([], [], t, .error (.CaptchaFailed MAX_RETRIES))
  | a :: rest, t =>
    match runAttempt cfg batch_id invoice_id invoice_code env cancel a t with
    | (evs, calls, t', .done r) => (evs, calls, t', r)
    | (evs, calls, t', .retry) =>
      match retryLoop cfg batch_id invoice_id invoice_code env cancel rest t' with
      | (evs2, calls2, t2, r) => (evs ++ evs2, calls ++ calls2, t2, r)

/-- download_invoice_with_retry_sync of downloader.rs: attempts 1..=MAX_RETRIES. -/
def download_invoice_with_retry_sync (cfg : DownloadConfig)
    (batch_id invoice_id invoice_code : String) (env : InvoiceEnv) (cancel : Nat → Bool)
    (t : Nat) : List Event × List BCall × Nat × Except AppError String :=
  retryLoop cfg batch_id invoice_id invoice_code env cancel (List.range' 1 MAX_RETRIES) t

/-- download_invoice_sync of downloader.rs: create the browser (an error
    returns at once), run the retry loop, drop the browser.  The async
    wrapper download_invoice only moves this onto a blocking thread (its
    panic branch is not modelled), so the batch loop is modelled as calling
    this function directly. -/
def download_invoice_sync (cfg : DownloadConfig) (batch_id invoice_id invoice_code : String)
    (env : InvoiceEnv) (cancel : Nat → Bool) (t : Nat) :
    List Event × List BCall × Nat × Except AppError String :=
  match env.newBrowser with
  | .error e => ([], [.newBrowser], t, .error e)
  | .ok _ =>
    match download_invoice_with_retry_sync cfg batch_id invoice_id invoice_code env cancel t with
    | (evs, calls, t', r) => (evs, .newBrowser :: calls, t', r)

/-- The for loop of download_batch over the remaining invoices, with idx the
    enumerate index of the head and t the cancellation counter.  Per
    iteration: the cancellation check (a break emits the cancellation log),
    the progress event, the downloading status, the per-invoice log, the
    invoice task, the terminal status and result for either outcome, and the
    cancellation read of the inter-invoice delay condition (the left operand
    of the conjunction, evaluated every iteration; the sleep itself emits
    nothing).  Returns events, final counter, success count, failed count
    and the results list produced by the remaining invoices. -/
def batchLoop (cfg : DownloadConfig) (batch_id : String) (envs : Nat → InvoiceEnv)
    (cancel : Nat → Bool) (total : Nat) :
    List InvoiceDownloadRequest → Nat → Nat → List Event × Nat × Nat × Nat × List InvoiceResult
  | [], _, t => ([], t, 0, 0, [])
  | inv :: rest, idx, t =>
    if cancel t then
      ([Event.log batch_id "warn" "Download batch cancelled by user"], t + 1, 0, 0, [])
    else
      match download_invoice_sync cfg batch_id inv.id inv.code (envs idx) cancel (t + 1) with
      | (evsTask, _calls, t2, r) =>
        match batchLoop cfg batch_id envs cancel total rest (idx + 1) (t2 + 1) with
        | (evsRest, t3, s, f, rs) =>
          let current := idx + 1
          let evHead : List Event :=
            [Event.progress batch_id current total (pct current total),
              Event.invoiceStatus batch_id inv.id "downloading" none none,
              Event.log batch_id "info"
                ("[" ++ toString current ++ "/" ++ toString total ++ "] Downloading: " ++
                  inv.code)]
          match r with
          | .ok file_path =>
            (evHead ++ evsTask ++
                Event.invoiceStatus batch_id inv.id "success" none (some file_path) :: evsRest,
              t3, 1 + s, f,
              InvoiceResult.mk inv.id inv.code "success" none (some file_path) :: rs)
          | .error e =>
            (evHead ++ evsTask ++
                Event.invoiceStatus batch_id inv.id "failed" (some e.toMessage) none :: evsRest,
              t3, s, 1 + f,
              InvoiceResult.mk inv.id inv.code "failed" (some e.toMessage) none :: rs)

/-- download_batch of downloader.rs: run the loop over all invoices, emit the
    final progress event at (total, total) and the summary log, and return
    Ok(BatchResult); the function has no early return and no error path. -/
def download_batch (cfg : DownloadConfig) (batch_id : String) (envs : Nat → InvoiceEnv)
    (cancel : Nat → Bool) (invoices : List InvoiceDownloadRequest) :
    List Event × Except AppError BatchResult :=
  match batchLoop cfg batch_id envs cancel invoices.length invoices 0 0 with
  | (evs, _t, s, f, rs) =>
    (evs ++
        [Event.progress batch_id invoices.length invoices.length
            (pct invoices.length invoices.length),
          Event.log batch_id "info"
            ("Batch complete: " ++ toString s ++ "/" ++ toString invoices.length ++
              " successful, " ++ toString f ++ "/" ++ toString invoices.length ++ " failed")],
      .ok (BatchResult.mk batch_id invoices.length s f rs))

/-- A log event (filtered out when stating ordering properties about the
    progress / status / captcha-required stream). -/
def Event.isLog : Event → Bool
  | .log _ _ _ => true
  | _ => false

/-- A non-log event. -/
def nonLog (e : Event) : Bool :=
  !e.isLog

/-- A terminal invoice status event ("success" or "failed"). -/
def Event.isTerminalStatus : Event → Bool
  | .invoiceStatus _ _ s _ _ => s = "success" || s = "failed"
  | _ => false

/-- A captcha-required event. -/
def Event.isCaptchaRequired : Event → Bool
  | .captchaRequired _ _ _ _ => true
  | _ => false

/-- The current field of a progress event. -/
def Event.progressCurrent : Event → Option Nat
  | .progress _ c _ _ => some c
  | _ => none

/-- The invoice identifier named by an event, when it names one. -/
def Event.invId : Event → Option String
  | .invoiceStatus _ i _ _ _ => some i
  | .captchaRequired _ i _ _ => some i
  | _ => none

/-- The per-invoice block structure of the non-log event stream: for each
    processed invoice (paired with its result), a progress event, a
    downloading status, some captcha-required events for that invoice, and
    the terminal status built from the result, blocks concatenated in
    request order. -/
def BlocksFor (batch_id : String) (total : Nat) :
    Nat → List (InvoiceDownloadRequest × InvoiceResult) → List Event → Prop
  | _, [], evs => evs = []
  | idx, (inv, r) :: rest, evs =>
    ∃ caps evs',
      (∀ e ∈ caps, ∃ img, e = Event.captchaRequired batch_id inv.id inv.code img) ∧
      evs = Event.progress batch_id (idx + 1) total (pct (idx + 1) total) ::
        Event.invoiceStatus batch_id inv.id "downloading" none none ::
        (caps ++ Event.invoiceStatus batch_id r.invoice_id r.status r.error r.file_path :: evs') ∧
      BlocksFor batch_id total (idx + 1) rest evs'

lemma runAttempt_shape (cfg : DownloadConfig) (b i c : String) (env : InvoiceEnv)
    (cancel : Nat → Bool) (a t : Nat) :
    ∀ e ∈ (runAttempt cfg b i c env cancel a t).1,
      (∃ lvl msg, e = Event.log b lvl msg) ∨ ∃ img, e = Event.captchaRequired b i c img := by
  intro e he
  unfold runAttempt at he
  repeat' split at he
  all_goals fin_cases he
  all_goals first
    | exact Or.inl ⟨_, _, rfl⟩
    | exact Or.inr ⟨_, rfl⟩

@[simp] lemma nonLog_log (b l m : String) : nonLog (Event.log b l m) = false := rfl

@[simp] lemma nonLog_progress (b : String) (c t p : Nat) :
    nonLog (Event.progress b c t p) = true := rfl

@[simp] lemma nonLog_status (b i s : String) (er fp : Option String) :
    nonLog (Event.invoiceStatus b i s er fp) = true := rfl

@[simp] lemma nonLog_captcha (b i c im : String) :
    nonLog (Event.captchaRequired b i c im) = true := rfl

@[simp] lemma isTerminalStatus_progress (b : String) (c t p : Nat) :
    (Event.progress b c t p).isTerminalStatus = false := rfl

@[simp] lemma isTerminalStatus_log (b l m : String) :
    (Event.log b l m).isTerminalStatus = false := rfl

@[simp] lemma isTerminalStatus_captcha (b i c im : String) :
    (Event.captchaRequired b i c im).isTerminalStatus = false := rfl

@[simp] lemma isTerminalStatus_downloading (b i : String) (er fp : Option String) :
    (Event.invoiceStatus b i "downloading" er fp).isTerminalStatus = false := rfl

@[simp] lemma isTerminalStatus_success (b i : String) (er fp : Option String) :
    (Event.invoiceStatus b i "success" er fp).isTerminalStatus = true := rfl

@[simp] lemma isTerminalStatus_failed (b i : String) (er fp : Option String) :
    (Event.invoiceStatus b i "failed" er fp).isTerminalStatus = true := rfl

lemma retryLoop_shape (cfg : DownloadConfig) (b i c : String) (env : InvoiceEnv)
    (cancel : Nat → Bool) :
    ∀ (l : List Nat) (t : Nat), ∀ e ∈ (retryLoop cfg b i c env cancel l t).1,
      (∃ lvl msg, e = Event.log b lvl msg) ∨ ∃ img, e = Event.captchaRequired b i c img := by
  intro l
  induction l with
  | nil => intro t e he; simp [retryLoop] at he
  | cons a rest ih =>
    intro t e he
    unfold retryLoop at he
    rcases hra : runAttempt cfg b i c env cancel a t with ⟨evs, calls, t', step⟩
    rw [hra] at he
    cases step with
    | done r =>
      simp at he
      exact runAttempt_shape cfg b i c env cancel a t e (by rw [hra]; exact he)
    | retry =>
      simp only [] at he
      rcases hrl : retryLoop cfg b i c env cancel rest t' with ⟨evs2, calls2, t2, r⟩
      rw [hrl] at he
      simp at he
      rcases he with he | he
      · exact runAttempt_shape cfg b i c env cancel a t e (by rw [hra]; exact he)
      · exact ih t' e (by rw [hrl]; exact he)

lemma download_invoice_sync_shape (cfg : DownloadConfig) (b i c : String) (env : InvoiceEnv)
    (cancel : Nat → Bool) (t : Nat) :
    ∀ e ∈ (download_invoice_sync cfg b i c env cancel t).1,
      (∃ lvl msg, e = Event.log b lvl msg) ∨ ∃ img, e = Event.captchaRequired b i c img := by
  intro e he
  unfold download_invoice_sync at he
  rcases hnb : env.newBrowser with e0 | u
  · rw [hnb] at he; simp at he
  · rw [hnb] at he
    rcases hrl : download_invoice_with_retry_sync cfg b i c env cancel t with ⟨evs, calls, t', r⟩
    rw [hrl] at he
    simp at he
    exact retryLoop_shape cfg b i c env cancel (List.range' 1 MAX_RETRIES) t e
      (by rw [show retryLoop cfg b i c env cancel (List.range' 1 MAX_RETRIES) t =
            download_invoice_with_retry_sync cfg b i c env cancel t from rfl, hrl]; exact he)

lemma task_terminal_nil (cfg : DownloadConfig) (b i c : String) (env : InvoiceEnv)
    (cancel : Nat → Bool) (t : Nat) :
    (download_invoice_sync cfg b i c env cancel t).1.filter Event.isTerminalStatus = [] := by
  rw [List.filter_eq_nil_iff]
  intro e he
  rcases download_invoice_sync_shape cfg b i c env cancel t e he with ⟨l, m, rfl⟩ | ⟨im, rfl⟩ <;>
    simp

lemma task_caps (cfg : DownloadConfig) (b i c : String) (env : InvoiceEnv)
    (cancel : Nat → Bool) (t : Nat) :
    ∀ e ∈ (download_invoice_sync cfg b i c env cancel t).1.filter nonLog,
      ∃ img, e = Event.captchaRequired b i c img := by
  intro e he
  rw [List.mem_filter] at he
  rcases download_invoice_sync_shape cfg b i c env cancel t e he.1 with ⟨l, m, rfl⟩ | h
  · exact absurd he.2 (by simp)
  · exact h

lemma batchLoop_master (cfg : DownloadConfig) (b : String) (envs : Nat → InvoiceEnv)
    (cancel : Nat → Bool) (total : Nat) :
    ∀ (rest : List InvoiceDownloadRequest) (idx t : Nat)
      (evs : List Event) (t' s f : Nat) (rs : List InvoiceResult),
      batchLoop cfg b envs cancel total rest idx t = (evs, t', s, f, rs) →
      s + f = rs.length ∧
      rs.map (fun r => (r.invoice_id, r.code)) =
        (rest.take rs.length).map (fun inv => (inv.id, inv.code)) ∧
      evs.filter Event.isTerminalStatus =
        rs.map (fun r => Event.invoiceStatus b r.invoice_id r.status r.error r.file_path) ∧
      BlocksFor b total idx ((rest.take rs.length).zip rs) (evs.filter nonLog) ∧
      (∀ r ∈ rs,
        (r.status = "success" ∧ r.error = none ∧ ∃ p, r.file_path = some p) ∨
        (r.status = "failed" ∧ (∃ e : AppError, r.error = some e.toMessage) ∧
          r.file_path = none)) ∧
      ((∀ u, cancel u = false) → rs.length = rest.length) := by
  intro rest
  induction rest with
  | nil =>
    intro idx t evs t' s f rs h
    simp [batchLoop] at h
    obtain ⟨rfl, rfl, rfl, rfl, rfl⟩ := h
    simp [BlocksFor]
  | cons inv rest ih =>
    intro idx t evs t' s f rs h
    unfold batchLoop at h
    by_cases hc : cancel t
    · rw [if_pos hc] at h
      simp only [Prod.mk.injEq] at h
      obtain ⟨rfl, rfl, rfl, rfl, rfl⟩ := h
      refine ⟨rfl, rfl, rfl, rfl, by simp, ?_⟩
      intro hall
      exact absurd (hall t) (by simp [hc])
    · rw [if_neg hc] at h
      rcases htask : download_invoice_sync cfg b inv.id inv.code (envs idx) cancel (t + 1)
        with ⟨evsT, calls, t2, r⟩
      rw [htask] at h
      simp only [] at h
      rcases hrest : batchLoop cfg b envs cancel total rest (idx + 1) (t2 + 1)
        with ⟨evsR, t3, s2, f2, rs2⟩
      rw [hrest] at h
      obtain ⟨hsum, hids, hterm, hblocks, hshape, hlen⟩ :=
        ih (idx + 1) (t2 + 1) evsR t3 s2 f2 rs2 hrest
      have hcapsT := task_caps cfg b inv.id inv.code (envs idx) cancel (t + 1)
      rw [htask] at hcapsT
      have htermT := task_terminal_nil cfg b inv.id inv.code (envs idx) cancel (t + 1)
      rw [htask] at htermT
      cases r with
      | ok fp =>
        simp only [Prod.mk.injEq] at h
        obtain ⟨rfl, rfl, rfl, rfl, rfl⟩ := h
        refine ⟨by simp; omega, ?_, ?_, ?_, ?_, ?_⟩
        · simp [hids]
        · simp [List.filter_append, htermT, hterm]
        · simp only [List.length_cons, List.take_succ_cons, List.zip_cons_cons, BlocksFor]
          refine ⟨evsT.filter nonLog, evsR.filter nonLog, hcapsT, ?_, hblocks⟩
          simp [List.filter_append]
        · intro r hr
          rw [List.mem_cons] at hr
          rcases hr with rfl | hr
          · exact Or.inl ⟨rfl, rfl, fp, rfl⟩
          · exact hshape r hr
        · intro hall
          simp [hlen hall]
      | error e =>
        simp only [Prod.mk.injEq] at h
        obtain ⟨rfl, rfl, rfl, rfl, rfl⟩ := h
        refine ⟨by simp; omega, ?_, ?_, ?_, ?_, ?_⟩
        · simp [hids]
        · simp [List.filter_append, htermT, hterm]
        · simp only [List.length_cons, List.take_succ_cons, List.zip_cons_cons, BlocksFor]
          refine ⟨evsT.filter nonLog, evsR.filter nonLog, hcapsT, ?_, hblocks⟩
          simp [List.filter_append]
        · intro r hr
          rw [List.mem_cons] at hr
          rcases hr with rfl | hr
          · exact Or.inr ⟨rfl, ⟨e, rfl⟩, rfl⟩
          · exact hshape r hr
        · intro hall
          simp [hlen hall]

lemma BlocksFor_progressCurrents (b : String) (total : Nat) :
    ∀ (ps : List (InvoiceDownloadRequest × InvoiceResult)) (idx : Nat) (evs : List Event),
      BlocksFor b total idx ps evs →
      evs.filterMap Event.progressCurrent = List.range' (idx + 1) ps.length := by
  intro ps
  induction ps with
  | nil =>
    intro idx evs h
    rw [show BlocksFor b total idx [] evs = (evs = []) from rfl] at h
    rw [h]
    rfl
  | cons p rest ih =>
    intro idx evs h
    obtain ⟨inv, r⟩ := p
    obtain ⟨caps, evs', hcaps, rfl, hrest⟩ := h
    have hcapsnone : caps.filterMap Event.progressCurrent = [] := by
      rw [List.filterMap_eq_nil_iff]
      intro e he
      obtain ⟨img, rfl⟩ := hcaps e he
      rfl
    simp only [List.filterMap_cons, Event.progressCurrent, List.filterMap_append, hcapsnone,
      ih (idx + 1) evs' hrest, List.length_cons, List.range'_succ, List.nil_append]

lemma BlocksFor_invId (b : String) (total : Nat) :
    ∀ (ps : List (InvoiceDownloadRequest × InvoiceResult)) (idx : Nat) (evs : List Event),
      BlocksFor b total idx ps evs →
      ∀ e ∈ evs, ∀ i, e.invId = some i →
        i ∈ ps.map (fun p => p.1.id) ∨ i ∈ ps.map (fun p => p.2.invoice_id) := by
  intro ps
  induction ps with
  | nil =>
    intro idx evs h e he
    rw [show BlocksFor b total idx [] evs = (evs = []) from rfl] at h
    subst h
    simp at he
  | cons p rest ih =>
    intro idx evs h e he i hi
    obtain ⟨inv, r⟩ := p
    obtain ⟨caps, evs', hcaps, rfl, hrest⟩ := h
    simp only [List.mem_cons, List.mem_append] at he
    rcases he with rfl | he
    · simp [Event.invId] at hi
    · rcases he with rfl | he
      · simp [Event.invId] at hi
        subst hi
        exact Or.inl (by simp)
      · rcases he with he | he
        · obtain ⟨img, rfl⟩ := hcaps e he
          simp [Event.invId] at hi
          subst hi
          exact Or.inl (by simp)
        · rcases he with rfl | he
          · simp [Event.invId] at hi
            subst hi
            exact Or.inr (by simp)
          · rcases ih (idx + 1) evs' hrest e he i hi with h1 | h1
            · exact Or.inl (by simp [h1])
            · exact Or.inr (by simp [h1])

lemma filterMap_progress_nonLog :
    ∀ l : List Event,
      l.filterMap Event.progressCurrent = (l.filter nonLog).filterMap Event.progressCurrent := by
  intro l
  induction l with
  | nil => rfl
  | cons e rest ih =>
    cases e <;> simp [List.filter_cons, List.filterMap_cons, Event.progressCurrent, ih]

lemma invId_mem_nonLog (l : List Event) (e : Event) (he : e ∈ l) (i : String)
    (hid : e.invId = some i) : e ∈ l.filter nonLog := by
  rw [List.mem_filter]
  refine ⟨he, ?_⟩
  cases e <;> simp_all [Event.invId]

/-- C2: every batch run returns a BatchResult in which success_count plus
    failed_count equals the length of the results list (the number of
    invoices whose processing actually started); the results pair off, in
    request order, with the started prefix of the request list, one outcome
    per started invoice; and the terminal invoiceStatus events of the run
    are exactly the one-per-started-invoice events built from those
    outcomes, so a never-started invoice contributes no outcome and no
    terminal event. -/
theorem c2_batch_outcome_invariants (cfg : DownloadConfig) (b : String)
    (envs : Nat → InvoiceEnv) (cancel : Nat → Bool)
    (invoices : List InvoiceDownloadRequest) :
    ∃ res : BatchResult,
      (download_batch cfg b envs cancel invoices).2 = .ok res ∧
      res.success_count + res.failed_count = res.results.length ∧
      res.results.length ≤ invoices.length ∧
      res.results.map (fun r => (r.invoice_id, r.code)) =
        (invoices.take res.results.length).map (fun inv => (inv.id, inv.code)) ∧
      (download_batch cfg b envs cancel invoices).1.filter Event.isTerminalStatus =
        res.results.map
          (fun r => Event.invoiceStatus b r.invoice_id r.status r.error r.file_path) := by
  rcases h : batchLoop cfg b envs cancel invoices.length invoices 0 0 with ⟨evs, t', s, f, rs⟩
  obtain ⟨hsum, hids, hterm, hblocks, hshape, hlen⟩ :=
    batchLoop_master cfg b envs cancel invoices.length invoices 0 0 evs t' s f rs h
  refine ⟨⟨b, invoices.length, s, f, rs⟩, ?_, hsum, ?_, hids, ?_⟩
  · unfold download_batch
    rw [h]
  · have hlen2 := congrArg List.length hids
    simp at hlen2
    show rs.length ≤ invoices.length
    omega
  · unfold download_batch
    rw [h]
    simp [List.filter_append, hterm]

/-- C4: download_batch always returns Ok(BatchResult): no invoice failure is
    propagated as a batch-level error; every failed invoice is recorded in
    the results list with the human-readable rendering of an AppError, and
    when cancellation never occurs the loop continues past failures so that
    every invoice of the batch contributes a result. -/
theorem c4_batch_never_throws (cfg : DownloadConfig) (b : String)
    (envs : Nat → InvoiceEnv) (cancel : Nat → Bool)
    (invoices : List InvoiceDownloadRequest) :
    ∃ res : BatchResult,
      (download_batch cfg b envs cancel invoices).2 = .ok res ∧
      (∀ r ∈ res.results, r.status = "failed" → ∃ e : AppError, r.error = some e.toMessage) ∧
      ((∀ u, cancel u = false) → res.results.length = invoices.length) := by
  rcases h : batchLoop cfg b envs cancel invoices.length invoices 0 0 with ⟨evs, t', s, f, rs⟩
  obtain ⟨hsum, hids, hterm, hblocks, hshape, hlen⟩ :=
    batchLoop_master cfg b envs cancel invoices.length invoices 0 0 evs t' s f rs h
  refine ⟨⟨b, invoices.length, s, f, rs⟩, ?_, ?_, hlen⟩
  · unfold download_batch
    rw [h]
  · intro r hr hfail
    rcases hshape r hr with ⟨hs, _, _⟩ | ⟨_, he, _⟩
    · rw [hs] at hfail
      exact absurd hfail (by simp)
    · exact he

/-- C5: every run returns a BatchResult and its event stream ends with the
    final progress event at (total, total) followed by the summary log; when
    the cancellation flag is already set at the very first check, the loop
    stops before any invoice: counts are zero, the results list is empty,
    and (for a nonempty batch) the only loop event is the cancellation log;
    and in every run, every event that names an invoice names one of the
    started prefix — an invoice never started gets no status, captcha or
    outcome at all. -/
theorem c5_cancellation_semantics (cfg : DownloadConfig) (b : String)
    (envs : Nat → InvoiceEnv) (cancel : Nat → Bool)
    (invoices : List InvoiceDownloadRequest) :
    ∃ (res : BatchResult) (pre : List Event),
      (download_batch cfg b envs cancel invoices).2 = .ok res ∧
      (download_batch cfg b envs cancel invoices).1 =
        pre ++
          [Event.progress b invoices.length invoices.length
              (pct invoices.length invoices.length),
            Event.log b "info"
              ("Batch complete: " ++ toString res.success_count ++ "/" ++
                toString invoices.length ++ " successful, " ++ toString res.failed_count ++
                "/" ++ toString invoices.length ++ " failed")] ∧
      (∀ e ∈ (download_batch cfg b envs cancel invoices).1, ∀ i, e.invId = some i →
        i ∈ (invoices.take res.results.length).map (fun inv => inv.id)) ∧
      (cancel 0 = true →
        res.success_count = 0 ∧ res.failed_count = 0 ∧ res.results = [] ∧
        (invoices = [] ∨ pre = [Event.log b "warn" "Download batch cancelled by user"])) := by
  rcases h : batchLoop cfg b envs cancel invoices.length invoices 0 0 with ⟨evs, t', s, f, rs⟩
  obtain ⟨hsum, hids, hterm, hblocks, hshape, hlen⟩ :=
    batchLoop_master cfg b envs cancel invoices.length invoices 0 0 evs t' s f rs h
  have hkle : rs.length ≤ invoices.length := by
    have hlen2 := congrArg List.length hids
    simp at hlen2
    omega
  refine ⟨⟨b, invoices.length, s, f, rs⟩, evs, ?_, ?_, ?_, ?_⟩
  · unfold download_batch
    rw [h]
  · unfold download_batch
    rw [h]
  · intro e he i hi
    unfold download_batch at he
    rw [h] at he
    simp only [List.mem_append, List.mem_cons, List.mem_singleton] at he
    rcases he with he | rfl | rfl | he
    · have hmem := invId_mem_nonLog evs e he i hi
      have hfst : List.map Prod.fst ((invoices.take rs.length).zip rs) =
          invoices.take rs.length := by
        apply List.map_fst_zip
        simp [List.length_take]
      have hsnd : List.map Prod.snd ((invoices.take rs.length).zip rs) = rs := by
        apply List.map_snd_zip
        simp [List.length_take]
        omega
      have hproj : rs.map (fun r => r.invoice_id) =
          (invoices.take rs.length).map (fun inv => inv.id) := by
        have h2 := congrArg (List.map Prod.fst) hids
        simpa [List.map_map, Function.comp] using h2
      show i ∈ (invoices.take rs.length).map (fun inv => inv.id)
      rcases BlocksFor_invId b invoices.length
          ((invoices.take rs.length).zip rs) 0 (evs.filter nonLog) hblocks e hmem i hi
        with h1 | h1
      · rw [← hfst, List.map_map]
        simpa [Function.comp] using h1
      · rw [← hproj]
        have h2 : List.map (fun r => r.invoice_id) rs =
            List.map (fun p : InvoiceDownloadRequest × InvoiceResult => p.2.invoice_id)
              ((List.take rs.length invoices).zip rs) := by
          conv_lhs => rw [← hsnd]
          rw [List.map_map]
          rfl
        rw [h2]
        exact h1
    · simp [Event.invId] at hi
    · simp [Event.invId] at hi
    · simp at he
  · intro hc0
    cases invoices with
    | nil =>
      rw [show batchLoop cfg b envs cancel ([] : List InvoiceDownloadRequest).length [] 0 0 =
          (([] : List Event), 0, 0, 0, ([] : List InvoiceResult)) from rfl] at h
      simp only [Prod.mk.injEq] at h
      obtain ⟨rfl, rfl, rfl, rfl, rfl⟩ := h
      exact ⟨rfl, rfl, rfl, Or.inl rfl⟩
    | cons inv rest =>
      unfold batchLoop at h
      rw [if_pos hc0] at h
      simp only [Prod.mk.injEq] at h
      obtain ⟨rfl, rfl, rfl, rfl, rfl⟩ := h
      exact ⟨rfl, rfl, rfl, Or.inr rfl⟩

/-- C9: in a run without cancellation every invoice is processed, in request
    order; the non-log event stream is exactly, per invoice: the progress
    event, the downloading status, the invoice's captcha-required events and
    its terminal status — blocks concatenated in request order with no
    interleaving, no event of a later invoice before the terminal event of
    an earlier one — followed by the final progress event at (total, total);
    and for a batch of 3 invoices the progress currents are 1, 2, 3 followed
    by the final event at 3. -/
theorem c9_event_ordering (cfg : DownloadConfig) (b : String) (envs : Nat → InvoiceEnv)
    (cancel : Nat → Bool) (invoices : List InvoiceDownloadRequest)
    (hc : ∀ u, cancel u = false) :
    ∃ (res : BatchResult) (body : List Event),
      (download_batch cfg b envs cancel invoices).2 = .ok res ∧
      res.results.length = invoices.length ∧
      (download_batch cfg b envs cancel invoices).1.filter nonLog =
        body ++
          [Event.progress b invoices.length invoices.length
            (pct invoices.length invoices.length)] ∧
      BlocksFor b invoices.length 0 (invoices.zip res.results) body ∧
      (invoices.length = 3 →
        (download_batch cfg b envs cancel invoices).1.filterMap Event.progressCurrent =
          [1, 2, 3, 3]) := by
  rcases h : batchLoop cfg b envs cancel invoices.length invoices 0 0 with ⟨evs, t', s, f, rs⟩
  obtain ⟨hsum, hids, hterm, hblocks, hshape, hlen⟩ :=
    batchLoop_master cfg b envs cancel invoices.length invoices 0 0 evs t' s f rs h
  have hk : rs.length = invoices.length := hlen hc
  rw [hk, List.take_length] at hblocks
  refine ⟨⟨b, invoices.length, s, f, rs⟩, evs.filter nonLog, ?_, hk, ?_, hblocks, ?_⟩
  · unfold download_batch
    rw [h]
  · unfold download_batch
    rw [h]
    simp [List.filter_append]
  · intro h3
    unfold download_batch
    rw [h]
    rw [List.filterMap_append, filterMap_progress_nonLog evs,
      BlocksFor_progressCurrents b invoices.length (invoices.zip rs) 0
        (evs.filter nonLog) hblocks]
    have hzlen : (invoices.zip rs).length = 3 := by
      simp [List.length_zip, hk, h3]
    rw [hzlen, h3]
    rfl

lemma runAttempt_solveFail (cfg : DownloadConfig) (b i c : String) (env : InvoiceEnv)
    (cancel : Nat → Bool) (a t : Nat) (img : List Nat) (es : AppError)
    (hc : cancel t = false)
    (hnav : env.browser.navigate a = .ok ())
    (hfc : env.browser.fillInvoiceCode a = .ok ())
    (hsh : env.browser.screenshot a = .ok img)
    (hsv : CaptchaSolver.solve_blocking cfg.openai_api_key (env.solveNet a) = .error es) :
    runAttempt cfg b i c env cancel a t =
      (Event.log b "info"
          ("Attempt " ++ toString a ++ "/" ++ toString MAX_RETRIES ++ " for invoice " ++ c) ::
        Event.log b "warn" ("Captcha solving failed: " ++ es.toMessage) ::
        (if a = MAX_RETRIES then [Event.captchaRequired b i c (base64Encode img)] else []),
        [.navigate, .fillInvoiceCode, .screenshot], t + 1, .retry) := by
  unfold runAttempt
  rw [hc, hnav, hfc, hsh, hsv]
  by_cases hm : a = MAX_RETRIES <;> simp [hm]

/-- All browser-session operations succeed on every attempt (the browser
    itself is healthy; the solver, banner and download may still fail). -/
def goodBrowser (env : InvoiceEnv) : Prop :=
  (∀ a, env.browser.navigate a = .ok ()) ∧
  (∀ a, env.browser.fillInvoiceCode a = .ok ()) ∧
  (∀ a, ∃ img, env.browser.screenshot a = .ok img) ∧
  (∀ a, env.browser.fillCaptcha a = .ok ()) ∧
  (∀ a, env.browser.submit a = .ok ())

lemma runAttempt_goodBrowser_step (cfg : DownloadConfig) (b i c : String) (env : InvoiceEnv)
    (cancel : Nat → Bool) (a t : Nat) (hg : goodBrowser env) :
    (runAttempt cfg b i c env cancel a t).2.2.2 =
        .done (.error (.DownloadFailed "Download cancelled")) ∨
      (∃ p, (runAttempt cfg b i c env cancel a t).2.2.2 = .done (.ok p)) ∨
      (runAttempt cfg b i c env cancel a t).2.2.2 = .retry := by
  obtain ⟨hnav, hfc, hsh, hfcap, hsub⟩ := hg
  obtain ⟨img, himg⟩ := hsh a
  unfold runAttempt
  by_cases hct : cancel t
  · rw [if_pos hct]
    exact Or.inl rfl
  · rw [if_neg hct, hnav a, hfc a, himg]
    cases hsv : CaptchaSolver.solve_blocking cfg.openai_api_key (env.solveNet a) with
    | error e =>
      by_cases hm : a = MAX_RETRIES <;> simp [hm]
    | ok txt =>
      rw [hfcap a, hsub a]
      cases hban : env.browser.checkForError a with
      | some banner =>
        by_cases hce : isCaptchaError banner
        · simp [hce]
        · cases hd : download_pdf_sync cfg env a c <;> simp [hce, hd]
      | none =>
        cases hd : download_pdf_sync cfg env a c <;> simp

lemma retryLoop_goodBrowser (cfg : DownloadConfig) (b i c : String) (env : InvoiceEnv)
    (cancel : Nat → Bool) (hg : goodBrowser env) :
    ∀ (l : List Nat) (t : Nat),
      (∃ p, (retryLoop cfg b i c env cancel l t).2.2.2 = .ok p) ∨
      (retryLoop cfg b i c env cancel l t).2.2.2 =
        .error (.DownloadFailed "Download cancelled") ∨
      (retryLoop cfg b i c env cancel l t).2.2.2 = .error (.CaptchaFailed MAX_RETRIES) := by
  intro l
  induction l with
  | nil =>
    intro t
    exact Or.inr (Or.inr rfl)
  | cons a rest ih =>
    intro t
    rcases hra : runAttempt cfg b i c env cancel a t with ⟨evs, calls, t', step⟩
    have hstep := runAttempt_goodBrowser_step cfg b i c env cancel a t hg
    rw [hra] at hstep
    unfold retryLoop
    rw [hra]
    cases step with
    | done r =>
      rcases hstep with h1 | ⟨p, h1⟩ | h1
      · simp only [Prod.mk.injEq] at h1 ⊢
        injection h1 with h1
        exact Or.inr (Or.inl (by simp [h1]))
      · injection h1 with h1
        exact Or.inl ⟨p, by simp [h1]⟩
      · exact absurd h1 (by simp)
    | retry =>
      simp only []
      rcases hrl : retryLoop cfg b i c env cancel rest t' with ⟨evs2, calls2, t2, r⟩
      have := ih t'
      rw [hrl] at this
      simpa using this

/-- C1 amended theorem: for an invoice whose browser session itself never
    fails, the retryable failure kinds — captcha-solve failures,
    captcha-rejection banners, and empty or failed downloads — are absorbed
    inside the task for up to MAX_RETRIES attempts: the task can only end in
    a success, the cancellation error, or the captcha-exhausted error.
    (Browser-call failures, by contrast, surface immediately; see the
    counterexample.) -/
theorem c1_retryable_kinds_absorbed (cfg : DownloadConfig) (b i c : String)
    (env : InvoiceEnv) (cancel : Nat → Bool) (t : Nat)
    (hg : goodBrowser env) (hnb : env.newBrowser = .ok ()) :
    (∃ p, (download_invoice_sync cfg b i c env cancel t).2.2.2 = .ok p) ∨
    (download_invoice_sync cfg b i c env cancel t).2.2.2 =
      .error (.DownloadFailed "Download cancelled") ∨
    (download_invoice_sync cfg b i c env cancel t).2.2.2 =
      .error (.CaptchaFailed MAX_RETRIES) := by
  unfold download_invoice_sync download_invoice_with_retry_sync
  rw [hnb]
  rcases hrl : retryLoop cfg b i c env cancel (List.range' 1 MAX_RETRIES) t
    with ⟨evs, calls, t', r⟩
  have := retryLoop_goodBrowser cfg b i c env cancel hg (List.range' 1 MAX_RETRIES) t
  rw [hrl] at this
  simpa using this

@[simp] lemma isCaptchaRequired_log (b l m : String) :
    (Event.log b l m).isCaptchaRequired = false := rfl

@[simp] lemma isCaptchaRequired_progress (b : String) (c t p : Nat) :
    (Event.progress b c t p).isCaptchaRequired = false := rfl

@[simp] lemma isCaptchaRequired_status (b i s : String) (er fp : Option String) :
    (Event.invoiceStatus b i s er fp).isCaptchaRequired = false := rfl

@[simp] lemma isCaptchaRequired_captcha (b i c im : String) :
    (Event.captchaRequired b i c im).isCaptchaRequired = true := rfl

lemma retry_allSolveFail (cfg : DownloadConfig) (b i c : String) (env : InvoiceEnv)
    (cancel : Nat → Bool) (imgs : Nat → List Nat) (es : Nat → AppError)
    (hc : ∀ u, cancel u = false)
    (hnav : ∀ a, env.browser.navigate a = .ok ())
    (hfc : ∀ a, env.browser.fillInvoiceCode a = .ok ())
    (hsh : ∀ a, env.browser.screenshot a = .ok (imgs a))
    (hsv : ∀ a, CaptchaSolver.solve_blocking cfg.openai_api_key (env.solveNet a) =
      .error (es a)) :
    ∀ t, download_invoice_with_retry_sync cfg b i c env cancel t =
      ([Event.log b "info" ("Attempt " ++ toString 1 ++ "/" ++ toString MAX_RETRIES ++
          " for invoice " ++ c),
        Event.log b "warn" ("Captcha solving failed: " ++ (es 1).toMessage),
        Event.log b "info" ("Attempt " ++ toString 2 ++ "/" ++ toString MAX_RETRIES ++
          " for invoice " ++ c),
        Event.log b "warn" ("Captcha solving failed: " ++ (es 2).toMessage),
        Event.log b "info" ("Attempt " ++ toString 3 ++ "/" ++ toString MAX_RETRIES ++
          " for invoice " ++ c),
        Event.log b "warn" ("Captcha solving failed: " ++ (es 3).toMessage),
        Event.captchaRequired b i c (base64Encode (imgs 3))],
        [.navigate, .fillInvoiceCode, .screenshot, .navigate, .fillInvoiceCode, .screenshot,
          .navigate, .fillInvoiceCode, .screenshot],
        t + 3, .error (.CaptchaFailed MAX_RETRIES)) := by
  intro t
  have h1 := runAttempt_solveFail cfg b i c env cancel 1 t (imgs 1) (es 1) (hc t)
    (hnav 1) (hfc 1) (hsh 1) (hsv 1)
  have h2 := runAttempt_solveFail cfg b i c env cancel 2 (t + 1) (imgs 2) (es 2) (hc (t + 1))
    (hnav 2) (hfc 2) (hsh 2) (hsv 2)
  have h3 := runAttempt_solveFail cfg b i c env cancel 3 (t + 1 + 1) (imgs 3) (es 3)
    (hc (t + 1 + 1)) (hnav 3) (hfc 3) (hsh 3) (hsv 3)
  norm_num [MAX_RETRIES] at h1 h2 h3
  unfold download_invoice_with_retry_sync
  rw [show List.range' 1 MAX_RETRIES = [1, 2, 3] from rfl]
  unfold retryLoop
  rw [h1]
  simp only []
  unfold retryLoop
  rw [h2]
  simp only []
  unfold retryLoop
  rw [h3]
  simp only []
  rw [show retryLoop cfg b i c env cancel [] (t + 1 + 1 + 1) =
    ([], [], t + 1 + 1 + 1, .error (.CaptchaFailed MAX_RETRIES)) from rfl]
  simp [MAX_RETRIES]

/-- C6: an invoice whose captcha solve fails on every attempt, while the
    browser operations succeed and cancellation is never set, runs exactly
    MAX_RETRIES = 3 attempts (three navigate / fill / screenshot rounds and
    nothing else — in particular the form is never submitted), emits exactly
    one captchaRequired event, as the last event of the task and carrying
    the base64 encoding of the final attempt's captcha image, and ends
    failed with the captcha-exhausted error whose message names the number
    of attempts. -/
theorem c6_captcha_exhaustion (cfg : DownloadConfig) (b i c : String) (env : InvoiceEnv)
    (cancel : Nat → Bool) (t : Nat)
    (hc : ∀ u, cancel u = false)
    (hnb : env.newBrowser = .ok ())
    (hnav : ∀ a, env.browser.navigate a = .ok ())
    (hfc : ∀ a, env.browser.fillInvoiceCode a = .ok ())
    (hsh : ∀ a, ∃ img, env.browser.screenshot a = .ok img)
    (hsv : ∀ a, ∃ e, CaptchaSolver.solve_blocking cfg.openai_api_key (env.solveNet a) =
      .error e) :
    ∃ img3, env.browser.screenshot 3 = .ok img3 ∧
      (download_invoice_sync cfg b i c env cancel t).2.2.2 =
        .error (.CaptchaFailed MAX_RETRIES) ∧
      (AppError.CaptchaFailed MAX_RETRIES).toMessage =
        "Captcha solving failed after 3 attempts" ∧
      (download_invoice_sync cfg b i c env cancel t).2.1 =
        [.newBrowser, .navigate, .fillInvoiceCode, .screenshot, .navigate, .fillInvoiceCode,
          .screenshot, .navigate, .fillInvoiceCode, .screenshot] ∧
      BCall.submit ∉ (download_invoice_sync cfg b i c env cancel t).2.1 ∧
      (download_invoice_sync cfg b i c env cancel t).1.filter Event.isCaptchaRequired =
        [Event.captchaRequired b i c (base64Encode img3)] ∧
      (download_invoice_sync cfg b i c env cancel t).1.getLast? =
        some (Event.captchaRequired b i c (base64Encode img3)) := by
  choose imgs himgs using hsh
  choose es hes using hsv
  have hrun := retry_allSolveFail cfg b i c env cancel imgs es hc hnav hfc himgs hes t
  refine ⟨imgs 3, himgs 3, ?_⟩
  unfold download_invoice_sync
  rw [hnb, hrun]
  refine ⟨rfl, rfl, rfl, by simp, by simp, rfl⟩

lemma solve_blocking_emptyKey (net : Except AppError (Option String)) :
    CaptchaSolver.solve_blocking "" net =
      .error (.ConfigError "OpenAI API key is not set") := by
  unfold CaptchaSolver.solve_blocking CaptchaSolver.solve
  rw [if_pos rfl]

lemma batchLoop_allFail (cfg : DownloadConfig) (b : String) (envs : Nat → InvoiceEnv)
    (cancel : Nat → Bool) (total : Nat)
    (hc : ∀ u, cancel u = false)
    (htask : ∀ idx i c t, (download_invoice_sync cfg b i c (envs idx) cancel t).2.2.2 =
      .error (.CaptchaFailed MAX_RETRIES)) :
    ∀ (rest : List InvoiceDownloadRequest) (idx t : Nat), ∃ (evs : List Event) (t' : Nat),
      batchLoop cfg b envs cancel total rest idx t =
        (evs, t', 0, rest.length,
          rest.map (fun inv => InvoiceResult.mk inv.id inv.code "failed"
            (some (AppError.CaptchaFailed MAX_RETRIES).toMessage) none)) := by
  intro rest
  induction rest with
  | nil => intro idx t; exact ⟨[], t, rfl⟩
  | cons inv rest ih =>
    intro idx t
    rcases htk : download_invoice_sync cfg b inv.id inv.code (envs idx) cancel (t + 1)
      with ⟨evsT, calls, t2, r⟩
    have hr := htask idx inv.id inv.code (t + 1)
    rw [htk] at hr
    simp only [] at hr
    subst hr
    obtain ⟨evsR, tR, hR⟩ := ih (idx + 1) (t2 + 1)
    refine ⟨?_, tR, ?_⟩
    · exact ([Event.progress b (idx + 1) total (pct (idx + 1) total),
        Event.invoiceStatus b inv.id "downloading" none none,
        Event.log b "info"
          ("[" ++ toString (idx + 1) ++ "/" ++ toString total ++ "] Downloading: " ++
            inv.code)] ++ evsT ++
        Event.invoiceStatus b inv.id "failed"
          (some (AppError.CaptchaFailed MAX_RETRIES).toMessage) none :: evsR)
    · unfold batchLoop
      rw [if_neg (by simp [hc t]), htk]
      simp only []
      rw [hR]
      simp [Nat.add_comm]

/-- C3 amended theorem: a missing captcha credential is not checked at the
    start of the batch and is not fatal to it; the per-attempt solve fails
    with the configuration error inside the retry loop, which absorbs it
    like any solve failure, so (with a healthy browser and no cancellation)
    every invoice of the batch is attempted and fails with the
    captcha-exhausted error, and the batch still returns an ordinary
    BatchResult.  No error at all is fatal to the whole batch: the
    accompanying c4 theorem shows download_batch always returns Ok. -/
theorem c3_missing_credential_not_fatal (cfg : DownloadConfig) (b : String)
    (envs : Nat → InvoiceEnv) (cancel : Nat → Bool)
    (invoices : List InvoiceDownloadRequest)
    (hkey : cfg.openai_api_key = "")
    (hc : ∀ u, cancel u = false)
    (hnb : ∀ idx, (envs idx).newBrowser = .ok ())
    (hnav : ∀ idx a, (envs idx).browser.navigate a = .ok ())
    (hfc : ∀ idx a, (envs idx).browser.fillInvoiceCode a = .ok ())
    (hsh : ∀ idx a, ∃ img, (envs idx).browser.screenshot a = .ok img) :
    (download_batch cfg b envs cancel invoices).2 =
      .ok (BatchResult.mk b invoices.length 0 invoices.length
        (invoices.map (fun inv => InvoiceResult.mk inv.id inv.code "failed"
          (some "Captcha solving failed after 3 attempts") none))) := by
  have htask : ∀ idx i c t, (download_invoice_sync cfg b i c (envs idx) cancel t).2.2.2 =
      .error (.CaptchaFailed MAX_RETRIES) := by
    intro idx i c t
    choose imgs himgs using hsh idx
    have hsv : ∀ a, CaptchaSolver.solve_blocking cfg.openai_api_key ((envs idx).solveNet a) =
        .error (.ConfigError "OpenAI API key is not set") := by
      intro a
      rw [hkey]
      exact solve_blocking_emptyKey _
    have hrun := retry_allSolveFail cfg b i c (envs idx) cancel imgs
      (fun _ => .ConfigError "OpenAI API key is not set") hc (hnav idx) (hfc idx) himgs hsv t
    unfold download_invoice_sync
    rw [hnb idx, hrun]
  obtain ⟨evs, t', hloop⟩ :=
    batchLoop_allFail cfg b envs cancel invoices.length hc htask invoices 0 0
  unfold download_batch
  rw [hloop]
  rfl

/-- C7: after a successful submit, when the response page carries an error
    banner, a banner matching a captcha-rejection phrase (case-insensitive)
    short-circuits the attempt straight to the next one — the attempt ends
    in a retry step with no download call issued — while a banner matching
    none of the phrases is only logged and the download is still attempted
    within the same attempt; the concrete conjuncts exhibit the
    case-insensitive match and a benign banner. -/
theorem c7_banner_policy (cfg : DownloadConfig) (b i c : String) (env : InvoiceEnv)
    (cancel : Nat → Bool) (a t : Nat) (txt banner : String)
    (hc : cancel t = false)
    (hnav : env.browser.navigate a = .ok ())
    (hfc : env.browser.fillInvoiceCode a = .ok ())
    (hsh : ∃ img, env.browser.screenshot a = .ok img)
    (hsv : CaptchaSolver.solve_blocking cfg.openai_api_key (env.solveNet a) = .ok txt)
    (hfcap : env.browser.fillCaptcha a = .ok ())
    (hsub : env.browser.submit a = .ok ())
    (hban : env.browser.checkForError a = some banner) :
    (isCaptchaError banner = true →
      runAttempt cfg b i c env cancel a t =
        ([Event.log b "info"
            ("Attempt " ++ toString a ++ "/" ++ toString MAX_RETRIES ++ " for invoice " ++ c),
          Event.log b "info" ("Captcha solved: " ++ txt),
          Event.log b "warn" ("Page error: " ++ banner)],
          [.navigate, .fillInvoiceCode, .screenshot, .fillCaptcha, .submit, .checkForError],
          t + 1, .retry) ∧
      BCall.downloadPdf ∉ (runAttempt cfg b i c env cancel a t).2.1) ∧
    (isCaptchaError banner = false →
      BCall.downloadPdf ∈ (runAttempt cfg b i c env cancel a t).2.1 ∧
      Event.log b "warn" ("Page error: " ++ banner) ∈ (runAttempt cfg b i c env cancel a t).1) ∧
    isCaptchaError "CAPTCHA khong hop le" = true ∧
    isCaptchaError "Sai mã xác thực" = true ∧
    isCaptchaError "Hóa đơn không tồn tại" = false := by
  obtain ⟨img, himg⟩ := hsh
  refine ⟨?_, ?_, by decide, by decide, by decide⟩
  · intro hcap
    unfold runAttempt
    rw [hc, hnav, hfc, himg, hsv, hfcap, hsub, hban]
    simp [hcap]
  · intro hncap
    unfold runAttempt
    rw [hc, hnav, hfc, himg, hsv, hfcap, hsub, hban]
    cases hd : download_pdf_sync cfg env a c <;> simp [hncap, hd]

/-- C8: a successful fetch with a non-empty payload and a healthy
    filesystem persists the PDF at the sanitized path
    downloadDirectory/sanitized(code).pdf and returns that path; the
    sanitizer replaces each path-hostile character with an underscore, and
    on the spec's concrete codes with directory /tmp/out the saved paths
    are /tmp/out/A_B_C.pdf and /tmp/out/D.pdf. -/
theorem c8_sanitized_path (cfg : DownloadConfig) (env : InvoiceEnv) (a : Nat)
    (code : String) (bytes : List Nat)
    (hdl : env.browser.downloadPdf a = .ok bytes)
    (hne : bytes ≠ [])
    (hfs : env.fs a = none) :
    download_pdf_sync cfg env a code =
      .ok (joinPath cfg.download_directory (sanitizeCode code ++ ".pdf")) ∧
    sanitizeCode "A/B:C" = "A_B_C" ∧
    joinPath "/tmp/out" (sanitizeCode "A/B:C" ++ ".pdf") = "/tmp/out/A_B_C.pdf" ∧
    joinPath "/tmp/out" (sanitizeCode "D" ++ ".pdf") = "/tmp/out/D.pdf" := by
  refine ⟨?_, by decide, by decide, by decide⟩
  unfold download_pdf_sync
  rw [hdl, hfs]
  simp [List.isEmpty_iff, hne]

/-- C10: when the cancellation flag is observed at the top of a retry
    attempt — after the batch loop's own check let the invoice start — the
    task returns the cancellation error and the batch loop treats it like
    any failure: the invoice gets a failed outcome carrying the
    cancellation message, failed_count is incremented, and a terminal
    failed status event is emitted, rather than the invoice being skipped
    with no outcome as happens when cancellation is seen before the task
    starts. -/
theorem c10_cancel_mid_task (cfg : DownloadConfig) (b : String)
    (inv : InvoiceDownloadRequest) (envs : Nat → InvoiceEnv) (cancel : Nat → Bool)
    (hc0 : cancel 0 = false) (hc1 : cancel 1 = true)
    (hnb : (envs 0).newBrowser = .ok ()) :
    download_batch cfg b envs cancel [inv] =
      ([Event.progress b 1 1 (pct 1 1),
        Event.invoiceStatus b inv.id "downloading" none none,
        Event.log b "info" ("[1/1] Downloading: " ++ inv.code),
        Event.invoiceStatus b inv.id "failed"
          (some "Download failed: Download cancelled") none,
        Event.progress b 1 1 (pct 1 1),
        Event.log b "info" "Batch complete: 0/1 successful, 1/1 failed"],
        .ok (BatchResult.mk b 1 0 1
          [InvoiceResult.mk inv.id inv.code "failed"
            (some "Download failed: Download cancelled") none])) := by
  have htask : download_invoice_sync cfg b inv.id inv.code (envs 0) cancel 1 =
      ([], [.newBrowser], 2, .error (.DownloadFailed "Download cancelled")) := by
    unfold download_invoice_sync download_invoice_with_retry_sync
    rw [hnb]
    rw [show List.range' 1 MAX_RETRIES = [1, 2, 3] from rfl]
    unfold retryLoop
    unfold runAttempt
    rw [hc1]
    rfl
  have hloop : batchLoop cfg b envs cancel 1 [inv] 0 0 =
      ([Event.progress b 1 1 (pct 1 1),
        Event.invoiceStatus b inv.id "downloading" none none,
        Event.log b "info" ("[1/1] Downloading: " ++ inv.code),
        Event.invoiceStatus b inv.id "failed"
          (some "Download failed: Download cancelled") none], 3, 0, 1,
        [InvoiceResult.mk inv.id inv.code "failed"
          (some "Download failed: Download cancelled") none]) := by
    unfold batchLoop
    rw [if_neg (by simp [hc0])]
    rw [show (0 : Nat) + 1 = 1 from rfl, htask]
    rfl
  unfold download_batch
  rw [show ([inv] : List InvoiceDownloadRequest).length = 1 from rfl, hloop]
  rfl

/-- A healthy browser oracle: every call succeeds, no error banner, a fixed
    non-empty PDF. -/
def benignBrowser : BrowserEnv where
  navigate := fun _ => .ok ()
  fillInvoiceCode := fun _ => .ok ()
  screenshot := fun _ => .ok [1, 2]
  fillCaptcha := fun _ => .ok ()
  submit := fun _ => .ok ()
  checkForError := fun _ => none
  downloadPdf := fun _ => .ok [37]

/-- A fully healthy invoice environment. -/
def benignEnv : InvoiceEnv where
  newBrowser := .ok ()
  browser := benignBrowser
  solveNet := fun _ => .ok (some "AB12")
  fs := fun _ => none

/-- A healthy environment whose navigate call fails on every attempt. -/
def navFailEnv : InvoiceEnv where
  newBrowser := .ok ()
  browser :=
    { benignBrowser with navigate := fun _ => .error (.BrowserError "connection refused") }
  solveNet := fun _ => .ok (some "AB12")
  fs := fun _ => none

/-- A healthy environment whose captcha network call fails on every attempt. -/
def solveFailEnv : InvoiceEnv where
  newBrowser := .ok ()
  browser := benignBrowser
  solveNet := fun _ => .error (.NetworkError "api down")
  fs := fun _ => none

/-- A healthy environment whose response page carries a captcha-rejection
    banner on every attempt. -/
def bannerEnv : InvoiceEnv where
  newBrowser := .ok ()
  browser := { benignBrowser with checkForError := fun _ => some "Sai mã xác thực" }
  solveNet := fun _ => .ok (some "AB12")
  fs := fun _ => none

def cfgA : DownloadConfig where
  vnpt_url := "https://vnpt.example"
  openai_api_key := "sk-test"
  download_directory := "/tmp/out"
  headless := true

def cfgEmptyKey : DownloadConfig where
  vnpt_url := "https://vnpt.example"
  openai_api_key := ""
  download_directory := "/tmp/out"
  headless := true

def invA : InvoiceDownloadRequest where
  id := "i1"
  code := "A/B:C"

/-- C1 counterexample: a transient browser failure — navigate failing — is
    not absorbed by the retry loop: the invoice task ends after the very
    first navigate call (trace shows a single attempt's navigate and nothing
    more) and surfaces the raw browser error to the batch loop, before the
    retry limit is exhausted. -/
theorem c1_counterexample :
    (download_invoice_sync cfgA "b1" "i1" "CODE" navFailEnv (fun _ => false) 0).2.2.2 =
      .error (.BrowserError "connection refused") ∧
    (download_invoice_sync cfgA "b1" "i1" "CODE" navFailEnv (fun _ => false) 0).2.1 =
      [.newBrowser, .navigate] := by
  exact ⟨rfl, rfl⟩

theorem c1_retryable_kinds_absorbed_witness :
    (∃ p, (download_invoice_sync cfgA "b1" "i1" "CODE" benignEnv (fun _ => false) 0).2.2.2 =
      .ok p) ∨
    (download_invoice_sync cfgA "b1" "i1" "CODE" benignEnv (fun _ => false) 0).2.2.2 =
      .error (.DownloadFailed "Download cancelled") ∨
    (download_invoice_sync cfgA "b1" "i1" "CODE" benignEnv (fun _ => false) 0).2.2.2 =
      .error (.CaptchaFailed MAX_RETRIES) :=
  c1_retryable_kinds_absorbed cfgA "b1" "i1" "CODE" benignEnv (fun _ => false) 0
    ⟨fun _ => rfl, fun _ => rfl, fun _ => ⟨[1, 2], rfl⟩, fun _ => rfl, fun _ => rfl⟩ rfl

/-- C3 counterexample: with an empty captcha credential the batch does not
    fail at start: the invoice is attempted (its downloading status is
    emitted), the configuration error is absorbed by the retry loop, the
    invoice fails with the captcha-exhausted error, and the batch still
    returns Ok(BatchResult) — refuting that a missing credential is fatal
    to the whole batch before any invoice is attempted. -/
theorem c3_counterexample :
    (download_batch cfgEmptyKey "b1" (fun _ => benignEnv) (fun _ => false) [invA]).2 =
      .ok (BatchResult.mk "b1" 1 0 1
        [InvoiceResult.mk "i1" "A/B:C" "failed"
          (some "Captcha solving failed after 3 attempts") none]) ∧
    Event.invoiceStatus "b1" "i1" "downloading" none none ∈
      (download_batch cfgEmptyKey "b1" (fun _ => benignEnv) (fun _ => false) [invA]).1 := by
  refine ⟨rfl, ?_⟩
  rw [show (download_batch cfgEmptyKey "b1" (fun _ => benignEnv) (fun _ => false) [invA]).1 =
    Event.progress "b1" 1 1 100 ::
      Event.invoiceStatus "b1" "i1" "downloading" none none ::
      (download_batch cfgEmptyKey "b1" (fun _ => benignEnv) (fun _ => false) [invA]).1.drop 2
    from rfl]
  exact List.mem_cons_of_mem _ (List.mem_cons_self _ _)

theorem c3_missing_credential_not_fatal_witness :
    (download_batch cfgEmptyKey "b1" (fun _ => benignEnv) (fun _ => false) [invA]).2 =
      .ok (BatchResult.mk "b1" 1 0 1
        [InvoiceResult.mk "i1" "A/B:C" "failed"
          (some "Captcha solving failed after 3 attempts") none]) :=
  c3_missing_credential_not_fatal cfgEmptyKey "b1" (fun _ => benignEnv) (fun _ => false)
    [invA] rfl (fun _ => rfl) (fun _ => rfl) (fun _ _ => rfl) (fun _ _ => rfl)
    (fun _ _ => ⟨[1, 2], rfl⟩)

theorem c4_batch_never_throws_witness :
    ∃ res : BatchResult,
      (download_batch cfgA "b1" (fun _ => navFailEnv) (fun _ => false) [invA]).2 = .ok res ∧
      res.results.length = 1 := by
  obtain ⟨res, h1, h2, h3⟩ :=
    c4_batch_never_throws cfgA "b1" (fun _ => navFailEnv) (fun _ => false) [invA]
  exact ⟨res, h1, h3 (fun _ => rfl)⟩

theorem c5_cancellation_semantics_witness :
    ∃ res : BatchResult,
      (download_batch cfgA "b1" (fun _ => benignEnv) (fun _ => true) [invA]).2 = .ok res ∧
      res.success_count = 0 ∧ res.failed_count = 0 ∧ res.results = [] := by
  obtain ⟨res, pre, h1, h2, h3, h4⟩ :=
    c5_cancellation_semantics cfgA "b1" (fun _ => benignEnv) (fun _ => true) [invA]
  obtain ⟨hs, hf, hr, _⟩ := h4 rfl
  exact ⟨res, h1, hs, hf, hr⟩

theorem c6_captcha_exhaustion_witness :
    ∃ img3, solveFailEnv.browser.screenshot 3 = .ok img3 ∧
      (download_invoice_sync cfgA "b1" "i1" "CODE" solveFailEnv (fun _ => false) 0).2.2.2 =
        .error (.CaptchaFailed MAX_RETRIES) ∧
      (AppError.CaptchaFailed MAX_RETRIES).toMessage =
        "Captcha solving failed after 3 attempts" ∧
      (download_invoice_sync cfgA "b1" "i1" "CODE" solveFailEnv (fun _ => false) 0).2.1 =
        [.newBrowser, .navigate, .fillInvoiceCode, .screenshot, .navigate, .fillInvoiceCode,
          .screenshot, .navigate, .fillInvoiceCode, .screenshot] ∧
      BCall.submit ∉
        (download_invoice_sync cfgA "b1" "i1" "CODE" solveFailEnv (fun _ => false) 0).2.1 ∧
      (download_invoice_sync cfgA "b1" "i1" "CODE" solveFailEnv
          (fun _ => false) 0).1.filter Event.isCaptchaRequired =
        [Event.captchaRequired "b1" "i1" "CODE" (base64Encode img3)] ∧
      (download_invoice_sync cfgA "b1" "i1" "CODE" solveFailEnv (fun _ => false) 0).1.getLast? =
        some (Event.captchaRequired "b1" "i1" "CODE" (base64Encode img3)) :=
  c6_captcha_exhaustion cfgA "b1" "i1" "CODE" solveFailEnv (fun _ => false) 0
    (fun _ => rfl) rfl (fun _ => rfl) (fun _ => rfl) (fun _ => ⟨[1, 2], rfl⟩)
    (fun _ => ⟨.NetworkError "api down", rfl⟩)

theorem c7_banner_policy_witness :
    runAttempt cfgA "b1" "i1" "C9" bannerEnv (fun _ => false) 1 0 =
      ([Event.log "b1" "info"
          ("Attempt " ++ toString 1 ++ "/" ++ toString MAX_RETRIES ++ " for invoice " ++ "C9"),
        Event.log "b1" "info" ("Captcha solved: " ++ "AB12"),
        Event.log "b1" "warn" ("Page error: " ++ "Sai mã xác thực")],
        [.navigate, .fillInvoiceCode, .screenshot, .fillCaptcha, .submit, .checkForError],
        0 + 1, .retry) ∧
      BCall.downloadPdf ∉ (runAttempt cfgA "b1" "i1" "C9" bannerEnv (fun _ => false) 1 0).2.1 :=
  (c7_banner_policy cfgA "b1" "i1" "C9" bannerEnv (fun _ => false) 1 0 "AB12"
    "Sai mã xác thực" rfl rfl rfl ⟨[1, 2], rfl⟩ rfl rfl rfl rfl).1 rfl

theorem c8_sanitized_path_witness :
    download_pdf_sync cfgA benignEnv 1 "A/B:C" =
      .ok (joinPath cfgA.download_directory (sanitizeCode "A/B:C" ++ ".pdf")) ∧
    sanitizeCode "A/B:C" = "A_B_C" ∧
    joinPath "/tmp/out" (sanitizeCode "A/B:C" ++ ".pdf") = "/tmp/out/A_B_C.pdf" ∧
    joinPath "/tmp/out" (sanitizeCode "D" ++ ".pdf") = "/tmp/out/D.pdf" :=
  c8_sanitized_path cfgA benignEnv 1 "A/B:C" [37] rfl (by decide) rfl

def invs3 : List InvoiceDownloadRequest :=
  [InvoiceDownloadRequest.mk "i1" "A", InvoiceDownloadRequest.mk "i2" "B",
    InvoiceDownloadRequest.mk "i3" "C"]

theorem c9_event_ordering_witness :
    ∃ (res : BatchResult) (body : List Event),
      (download_batch cfgA "b1" (fun _ => navFailEnv) (fun _ => false) invs3).2 = .ok res ∧
      res.results.length = invs3.length ∧
      (download_batch cfgA "b1" (fun _ => navFailEnv) (fun _ => false) invs3).1.filter nonLog =
        body ++
          [Event.progress "b1" invs3.length invs3.length (pct invs3.length invs3.length)] ∧
      BlocksFor "b1" invs3.length 0 (invs3.zip res.results) body ∧
      (invs3.length = 3 →
        (download_batch cfgA "b1" (fun _ => navFailEnv) (fun _ => false)
            invs3).1.filterMap Event.progressCurrent = [1, 2, 3, 3]) :=
  c9_event_ordering cfgA "b1" (fun _ => navFailEnv) (fun _ => false) invs3 (fun _ => rfl)

theorem c10_cancel_mid_task_witness :
    download_batch cfgA "b1" (fun _ => benignEnv) (fun t => decide (1 ≤ t)) [invA] =
      ([Event.progress "b1" 1 1 (pct 1 1),
        Event.invoiceStatus "b1" invA.id "downloading" none none,
        Event.log "b1" "info" ("[1/1] Downloading: " ++ invA.code),
        Event.invoiceStatus "b1" invA.id "failed"
          (some "Download failed: Download cancelled") none,
        Event.progress "b1" 1 1 (pct 1 1),
        Event.log "b1" "info" "Batch complete: 0/1 successful, 1/1 failed"],
        .ok (BatchResult.mk "b1" 1 0 1
          [InvoiceResult.mk invA.id invA.code "failed"
            (some "Download failed: Download cancelled") none])) :=
  c10_cancel_mid_task cfgA "b1" invA (fun _ => benignEnv) (fun t => decide (1 ≤ t))
    rfl rfl rfl
